import Mathlib

/-!
Verification of the configuration-resolution engine of wauterboi/knockout-client
(`src/config.ts`), shallowly embedded in Lean 4.

The two input sources (parsed command-line arguments and process environment
variables) are modelled as read-only snapshots `String → Option String`, the
file system read by `readUtf8File` as a snapshot `String → Option String`
(path to decoded UTF-8 contents), and JavaScript exceptions as an explicit
`Except` error channel.
-/

namespace Knockout

/-- A thrown JavaScript value. `Error` instances carry the class name (for
example "RangeError") and a mutable `message`; JavaScript also permits
throwing values that are not `Error` instances, modelled by `nonError` with
an opaque string payload. The `instanceof Error` test at `config.ts:81`
distinguishes the two constructors. -/
inductive Thrown where
  | error (ename : String) (msg : String)
  | nonError (payload : String)
deriving DecidableEq, Repr

/-- A JavaScript number as this program exercises it: every value that flows
through `inRange`/`parseInt` here is either an integer or `NaN`, so the model
carries `Int` plus a distinguished `nan`. -/
inductive JSNum where
  | num (val : Int)
  | nan
deriving DecidableEq, Repr

/-- JavaScript `<` on numbers: false whenever either operand is `NaN`. -/
def jlt : JSNum → JSNum → Bool
  | JSNum.num a, JSNum.num b => decide (a < b)
  | _, _ => false

/-- JavaScript `>` on numbers: false whenever either operand is `NaN`. -/
def jgt : JSNum → JSNum → Bool
  | JSNum.num a, JSNum.num b => decide (b < a)
  | _, _ => false

/-- JavaScript number-to-string coercion, restricted to the values of `JSNum`:
integers print in decimal and `NaN` prints as "NaN". -/
def JSNum.toStr : JSNum → String
  | JSNum.num i => toString i
  | JSNum.nan => "NaN"

/-- `ConfigValidator<T>` (config.ts:10): a validator either returns
(success is silent) or throws. -/
def ConfigValidator (T : Type) : Type := T → Except Thrown Unit

/-- `ConfigParser<T>` (config.ts:16): a parser takes the raw string and either
returns a `T` or throws. -/
def ConfigParser (T : Type) : Type := String → Except Thrown T

/-- `inRange` (config.ts:26-32): validator factory throwing a `RangeError`
when `value < min || value > max` under JavaScript comparison. -/
def inRange (min max : JSNum) : ConfigValidator JSNum := fun value =>
  if jlt value min || jgt value max then
    Except.error (Thrown.error "RangeError"
      ("Value " ++ value.toStr ++ " is not in range [" ++ min.toStr ++ ", " ++ max.toStr ++ "]"))
  else
    Except.ok ()

/-- `getEnvCase` (config.ts:40): uppercase the option name for the
environment lookup (`name.toUpperCase()`), written as a character-wise map so
that it computes by structural recursion. -/
def getEnvCase (name : String) : String := String.mk (name.toList.map Char.toUpper)

/-- The `catch` block of `getOption` (config.ts:80-84): a thrown value that is
an `instanceof Error` has its message rewritten in place (note the source's
misspelling "invaild"); any other thrown value is left untouched. Either way
the value is re-thrown. -/
def rewriteThrown (name : String) : Thrown → Thrown
  | Thrown.error ename msg =>
      Thrown.error ename ("Option " ++ name ++ " is invaild: " ++ msg)
  | Thrown.nonError payload => Thrown.nonError payload

/-- The validator loop of `getOption` (config.ts:77-86): run each validator in
order on the parsed value, stopping at the first failure, whose thrown value
is passed through `rewriteThrown` and re-thrown. -/
def runValidators {T : Type} (name : String) (vs : List (ConfigValidator T)) (v : T) :
    Except Thrown Unit :=
  match vs with
  | [] => Except.ok ()
  | validator :: rest =>
    match validator v with
    | Except.ok _ => runValidators name rest v
    | Except.error err => Except.error (rewriteThrown name err)

/-- Lines 74-89 of `getOption`: parse the raw value (a parse failure
propagates unmodified, without name-prefixing), then run the validators when
the `validators` argument was supplied, and return the parsed value. The
repository always supplies a parser at every call site (the identity parser is
written out as a lambda at config.ts:141), so the parser argument is mandatory
here. -/
def processRawValue {T : Type} (name : String) (parser : ConfigParser T)
    (validators : Option (List (ConfigValidator T))) (rawValue : String) :
    Except Thrown T :=
  match parser rawValue with
  | Except.error e => Except.error e
  | Except.ok parsedValue =>
    match validators with
    | none => Except.ok parsedValue
    | some vs =>
      match runValidators name vs parsedValue with
      | Except.error e => Except.error e
      | Except.ok _ => Except.ok parsedValue

/-- `getOption` (config.ts:58-90). The raw value is
`args[name] ?? Deno.env.get(getEnvCase(name))`: the CLI mapping wins whenever
it has an entry for `name` (the nullish-coalescing match below), otherwise the
environment is consulted under the uppercased name. An absent raw value
returns the default, or throws a `ReferenceError` when no default was
declared; a present raw value (empty string included) goes through
`processRawValue`. -/
def getOption {T : Type} (name : String) (defaultValue : Option T)
    (parser : ConfigParser T) (validators : Option (List (ConfigValidator T)))
    (args env : String → Option String) : Except Thrown T :=
  let rawValue : Option String :=
    match args name with
    | some v => some v
    | none => env (getEnvCase name)
  match rawValue with
  | none =>
    match defaultValue with
    | none =>
        Except.error (Thrown.error "ReferenceError"
          ("Required option " ++ name ++ " is unset"))
    | some d => Except.ok d
  | some raw => processRawValue name parser validators raw

/-- True for the characters ECMAScript `parseInt` skips at the front of its
input (the common whitespace characters; the program only ever feeds it
ordinary option strings). -/
def isJsWhitespace (c : Char) : Bool :=
  c = ' ' || c = '\t' || c = '\n' || c = '\r'

/-- Numeric value of a list of decimal digits. -/
def decVal (ds : List Char) : Int :=
  ds.foldl (fun acc c => acc * 10 + (Int.ofNat (c.toNat - ('0').toNat))) 0

/-- Models the ECMAScript built-in `parseInt` with no radix argument, as used
for the `port` option (config.ts:147), on the inputs this program can feed it
(decimal, optionally signed, hexadecimal prefixes aside): leading whitespace
and an optional sign are skipped, the longest prefix of decimal digits is
converted, trailing characters are ignored, and an empty digit prefix yields
`NaN` — `parseInt` never throws. -/
def parseIntJS (s : String) : JSNum :=
  let l := s.toList.dropWhile isJsWhitespace
  let signAndRest : Int × List Char :=
    match l with
    | '-' :: rest => (-1, rest)
    | '+' :: rest => (1, rest)
    | _ => (1, l)
  let ds := signAndRest.2.takeWhile Char.isDigit
  if ds.isEmpty then JSNum.nan
  else JSNum.num (signAndRest.1 * decVal ds)

/-- The result of the WHATWG `URL` constructor (config.ts:142), modelled as
the input string it was built from. -/
structure JSURL where
  href : String
deriving DecidableEq, Repr

/-- Very coarse well-formedness test standing in for WHATWG URL parsing: a
non-empty alphabetic scheme, then "://", then a non-empty remainder. The
claims only need that some concrete well-formed string parses and that the
constructor can throw; no claim depends on the exact boundary of validity. -/
def urlWellFormed (s : String) : Bool :=
  let l := s.toList
  let scheme := l.takeWhile Char.isAlpha
  let rest := l.drop scheme.length
  !scheme.isEmpty &&
    (match rest with
     | ':' :: '/' :: '/' :: h => !h.isEmpty
     | _ => false)

/-- Models `new URL(value)` (config.ts:142): a malformed string throws a
`TypeError`, a well-formed one yields the URL. -/
def parseURL : ConfigParser JSURL := fun value =>
  if urlWellFormed value then Except.ok (JSURL.mk value)
  else Except.error (Thrown.error "TypeError" ("Invalid URL: " ++ value))

/-- `readUtf8File` (config.ts:100-102), run against a snapshot `fs` of the
file system mapping each readable path to its decoded UTF-8 contents; a path
with no entry models the `Deno.errors.NotFound` / `PermissionDenied`
rejection of `Deno.readFile`. -/
def readUtf8File (fs : String → Option String) : ConfigParser String := fun filepath =>
  match fs filepath with
  | some contents => Except.ok contents
  | none => Except.error (Thrown.error "NotFound" ("No such file or directory: " ++ filepath))

/-- The `https` field of `Config` (config.ts:122-132). -/
structure HttpsConfig where
  key : String
  cert : String
deriving DecidableEq, Repr

/-- The `Config` interface (config.ts:108-138). -/
structure Config where
  apiKey : String
  baseUrl : JSURL
  https : HttpsConfig
  port : JSNum
deriving DecidableEq, Repr

/-- The `config` object literal (config.ts:140-148), evaluated top to bottom
with the first thrown error aborting the whole construction, parameterised by
the three snapshots (CLI arguments, environment, file system). The `port`
parser wraps `parseInt`, which never throws. -/
def resolveConfig (args env fs : String → Option String) : Except Thrown Config := do
  let apiKey ← getOption "knockout_api_key" none (fun value => Except.ok value) none args env
  let baseUrl ← getOption "base_url" none parseURL none args env
  let key ← getOption "https_key_filepath" none (readUtf8File fs) none args env
  let cert ← getOption "https_cert_filepath" none (readUtf8File fs) none args env
  let port ← getOption "port" (some (JSNum.num 3000))
    (fun value => Except.ok (parseIntJS value))
    (some [inRange (JSNum.num 1) (JSNum.num 65535)]) args env
  pure (Config.mk apiKey baseUrl (HttpsConfig.mk key cert) port)

/-- `prefAt pat l` holds when `pat` is a prefix of `l`. -/
def prefAt : List Char → List Char → Bool
  | [], _ => true
  | _ :: _, [] => false
  | p :: ps, c :: cs => p = c && prefAt ps cs

/-- `hasSubList pat l` holds when `pat` occurs contiguously inside `l`. -/
def hasSubList (pat : List Char) : List Char → Bool
  | [] => prefAt pat []
  | c :: cs => prefAt pat (c :: cs) || hasSubList pat cs

/-- `strContainsSub s pat` holds when `pat` occurs as a contiguous substring
of `s` (used to state claims about error-message text). -/
def strContainsSub (s pat : String) : Bool := hasSubList pat.toList s.toList

/-- The parser `config.ts:147` passes for `port`: `parseInt`, which never
throws. -/
def portParser : ConfigParser JSNum := fun value => Except.ok (parseIntJS value)

/-- The validator list `config.ts:147` passes for `port`. -/
def portValidators : Option (List (ConfigValidator JSNum)) :=
  some [inRange (JSNum.num 1) (JSNum.num 65535)]

/-- CLI snapshot supplying only `--port=70000`. -/
def argsPort70000 : String → Option String :=
  fun n => if n = "port" then some "70000" else none

/-- Environment snapshot supplying only `PORT=8080`. -/
def envPort8080 : String → Option String :=
  fun n => if n = "PORT" then some "8080" else none

/-- Claim C1: for every option name and every pair of input snapshots, when
the CLI mapping has an entry for the name, `getOption` resolves from that CLI
raw value (for any parser and validators, so independently of later parse or
validation success); the environment value under the uppercased name is used
only when the CLI lookup returns no entry. -/
theorem cliPrecedenceAbsolute {T : Type} (args env : String → Option String)
    (name rawC rawE : String) (d : Option T) (p : ConfigParser T)
    (vs : Option (List (ConfigValidator T))) :
    (args name = some rawC →
      getOption name d p vs args env = processRawValue name p vs rawC) ∧
    (args name = none → env (getEnvCase name) = some rawE →
      getOption name d p vs args env = processRawValue name p vs rawE) := by
  constructor
  · intro h
    simp [getOption, h]
  · intro hA hE
    simp [getOption, hA, hE]

/-- Claim C1 witness: with CLI `--port=70000` and environment `PORT=8080` the
resolver processes the raw string "70000"; with the CLI entry removed it
processes the environment's "8080". -/
theorem cliPrecedenceAbsoluteWitness :
    (getOption "port" (some (JSNum.num 3000)) portParser portValidators
        argsPort70000 envPort8080
      = processRawValue "port" portParser portValidators "70000") ∧
    (getOption "port" (some (JSNum.num 3000)) portParser portValidators
        (fun _ => none) envPort8080
      = processRawValue "port" portParser portValidators "8080") :=
  ⟨(cliPrecedenceAbsolute argsPort70000 envPort8080 "port" "70000" "8080"
      (some (JSNum.num 3000)) portParser portValidators).1 rfl,
   (cliPrecedenceAbsolute (fun _ => none) envPort8080 "port" "70000" "8080"
      (some (JSNum.num 3000)) portParser portValidators).2 rfl (by decide)⟩

/-- Claim C5: a required option (declared with no default) whose name is
absent from the CLI mapping and whose uppercased name is absent from the
environment fails with the `ReferenceError` naming that option, for every
parser and validator list — so before any parser could run. -/
theorem requiredMissingFails {T : Type} (args env : String → Option String)
    (name : String) (p : ConfigParser T) (vs : Option (List (ConfigValidator T)))
    (hA : args name = none) (hE : env (getEnvCase name) = none) :
    getOption name (none : Option T) p vs args env
      = Except.error (Thrown.error "ReferenceError"
          ("Required option " ++ name ++ " is unset")) := by
  simp [getOption, hA, hE]

/-- Claim C5 witness: `knockout_api_key` with both snapshots empty fails with
the missing-required-option error even under a parser that would itself
throw, showing the parser is never reached. -/
theorem requiredMissingFailsWitness :
    getOption "knockout_api_key" (none : Option String)
      (fun _ => Except.error (Thrown.error "TypeError" "parser ran"))
      none (fun _ => none) (fun _ => none)
      = Except.error (Thrown.error "ReferenceError"
          "Required option knockout_api_key is unset") :=
  requiredMissingFails (fun _ => none) (fun _ => none) "knockout_api_key"
    (fun _ => Except.error (Thrown.error "TypeError" "parser ran")) none rfl rfl

/-- Claim C6: an optional option (declared with default `d`) with neither a
CLI entry nor an environment entry resolves to `d` itself, for every parser
and validator list — so `d` is neither parsed nor validated. -/
theorem optionalMissingReturnsDefault {T : Type} (args env : String → Option String)
    (name : String) (d : T) (p : ConfigParser T)
    (vs : Option (List (ConfigValidator T)))
    (hA : args name = none) (hE : env (getEnvCase name) = none) :
    getOption name (some d) p vs args env = Except.ok d := by
  simp [getOption, hA, hE]

/-- Claim C6 witness: `port` with both snapshots empty returns the default
3000 even under a parser and a validator that would both throw, showing
neither touches the default. -/
theorem optionalMissingReturnsDefaultWitness :
    getOption "port" (some (JSNum.num 3000))
      (fun _ => Except.error (Thrown.error "TypeError" "parser ran"))
      (some [fun _ => Except.error (Thrown.error "Error" "validator ran")])
      (fun _ => none) (fun _ => none)
      = Except.ok (JSNum.num 3000) :=
  optionalMissingReturnsDefault (fun _ => none) (fun _ => none) "port"
    (JSNum.num 3000)
    (fun _ => Except.error (Thrown.error "TypeError" "parser ran"))
    (some [fun _ => Except.error (Thrown.error "Error" "validator ran")]) rfl rfl

/-- Claim C7: an explicitly supplied empty-string raw value counts as
present from either source: resolution proceeds through `processRawValue`
applied to `""` (parser and validators included), for every default, with no
fallback to the other source or the default — presence is key existence, not
string truthiness. -/
theorem emptyStringCountsAsPresent {T : Type} (args env : String → Option String)
    (name : String) (d : Option T) (p : ConfigParser T)
    (vs : Option (List (ConfigValidator T))) :
    (args name = some "" →
      getOption name d p vs args env = processRawValue name p vs "") ∧
    (args name = none → env (getEnvCase name) = some "" →
      getOption name d p vs args env = processRawValue name p vs "") := by
  constructor
  · intro h
    simp [getOption, h]
  · intro hA hE
    simp [getOption, hA, hE]

/-- CLI snapshot supplying only an explicitly empty `--knockout_api_key=`. -/
def argsEmptyKey : String → Option String :=
  fun n => if n = "knockout_api_key" then some "" else none

/-- Environment snapshot supplying only `KNOCKOUT_API_KEY=` (empty). -/
def envEmptyKey : String → Option String :=
  fun n => if n = "KNOCKOUT_API_KEY" then some "" else none

/-- Claim C7 witness: an empty `knockout_api_key` supplied on the CLI, and
alternatively in the environment, is parsed/validated as the raw string `""`
instead of falling back to the default "fallback". -/
theorem emptyStringCountsAsPresentWitness :
    (getOption "knockout_api_key" (some "fallback") (fun value => Except.ok value)
        none argsEmptyKey (fun _ => none)
      = processRawValue "knockout_api_key" (fun value => Except.ok value) none "") ∧
    (getOption "knockout_api_key" (some "fallback") (fun value => Except.ok value)
        none (fun _ => none) envEmptyKey
      = processRawValue "knockout_api_key" (fun value => Except.ok value) none "") :=
  ⟨(emptyStringCountsAsPresent argsEmptyKey (fun _ => none) "knockout_api_key"
      (some "fallback") (fun value => Except.ok value) none).1 rfl,
   (emptyStringCountsAsPresent (fun _ => none) envEmptyKey "knockout_api_key"
      (some "fallback") (fun value => Except.ok value) none).2 rfl (by decide)⟩

/-- Claim C10: the name-prefixing of validation failures applies only to
thrown `Error` instances: a validator that throws a non-Error value has that
value re-raised by `getOption` completely unmodified, and `rewriteThrown`
is the identity on non-Error thrown values. -/
theorem nonErrorRethrownUnmodified {T : Type} (args env : String → Option String)
    (name payload raw : String) (d : Option T) (p : ConfigParser T) (v : T)
    (hA : args name = some raw) (hp : p raw = Except.ok v) :
    getOption name d p (some [fun _ => Except.error (Thrown.nonError payload)]) args env
      = Except.error (Thrown.nonError payload) ∧
    (∀ nm : String, rewriteThrown nm (Thrown.nonError payload)
      = Thrown.nonError payload) := by
  constructor
  · simp [getOption, hA, processRawValue, hp, runValidators, rewriteThrown]
  · intro nm
    rfl

/-- CLI snapshot supplying only `--port=5`. -/
def argsPort5 : String → Option String :=
  fun n => if n = "port" then some "5" else none

/-- Claim C10 witness: a validator on `port` that throws the bare string
payload "boom" (not an Error) makes `getOption` re-raise exactly that
payload, with no option name or marker attached. -/
theorem nonErrorRethrownUnmodifiedWitness :
    getOption "port" (some (JSNum.num 3000)) portParser
      (some [fun _ => Except.error (Thrown.nonError "boom")])
      argsPort5 (fun _ => none)
      = Except.error (Thrown.nonError "boom") ∧
    (∀ nm : String, rewriteThrown nm (Thrown.nonError "boom")
      = Thrown.nonError "boom") :=
  nonErrorRethrownUnmodified argsPort5 (fun _ => none) "port" "boom" "5"
    (some (JSNum.num 3000)) portParser (JSNum.num 5) rfl rfl

/-- Claim C8: the validator `inRange 1 65535` accepts the boundary values 1
and 65535 and rejects 0 and 65536 with a `RangeError`; in general, on numeric
values the validator succeeds exactly when the value is neither below `min`
nor above `max` (both bounds inclusive). -/
theorem inRangeBoundsInclusive :
    inRange (JSNum.num 1) (JSNum.num 65535) (JSNum.num 1) = Except.ok () ∧
    inRange (JSNum.num 1) (JSNum.num 65535) (JSNum.num 65535) = Except.ok () ∧
    inRange (JSNum.num 1) (JSNum.num 65535) (JSNum.num 0)
      = Except.error (Thrown.error "RangeError" "Value 0 is not in range [1, 65535]") ∧
    inRange (JSNum.num 1) (JSNum.num 65535) (JSNum.num 65536)
      = Except.error (Thrown.error "RangeError" "Value 65536 is not in range [1, 65535]") ∧
    ∀ mn mx v : Int,
      (inRange (JSNum.num mn) (JSNum.num mx) (JSNum.num v) = Except.ok ())
        ↔ ¬(v < mn ∨ mx < v) := by
  refine ⟨rfl, rfl, rfl, rfl, ?_⟩
  intro mn mx v
  by_cases h : v < mn ∨ mx < v
  · have hb : (jlt (JSNum.num v) (JSNum.num mn) || jgt (JSNum.num v) (JSNum.num mx)) = true := by
      simp [jlt, jgt]
      omega
    simp [inRange, hb, h]
  · have hb : (jlt (JSNum.num v) (JSNum.num mn) || jgt (JSNum.num v) (JSNum.num mx)) = false := by
      simp [jlt, jgt]
      omega
    simp [inRange, hb, h]

/-- Claim C9: a validator produced by `inRange` raises exactly when the
JavaScript comparisons `value < min` or `value > max` hold; both are false on
`NaN`, so `NaN` — in particular `parseInt` applied to a non-numeric `port`
string — passes every range validator. -/
theorem nanPassesEveryRange :
    (∀ mn mx v : JSNum,
      (inRange mn mx v = Except.ok ()) ↔ (jlt v mn || jgt v mx) = false) ∧
    parseIntJS "n/a" = JSNum.nan ∧
    (∀ mn mx : JSNum, inRange mn mx JSNum.nan = Except.ok ()) := by
  refine ⟨?_, rfl, ?_⟩
  · intro mn mx v
    cases hb : (jlt v mn || jgt v mx) <;> simp [inRange, hb]
  · intro mn mx
    cases mn <;> cases mx <;> simp [inRange, jlt, jgt]

/-- CLI snapshot supplying only the non-numeric `--port=abc`. -/
def argsPortAbc : String → Option String :=
  fun n => if n = "port" then some "abc" else none

/-- Claim C2 evaluation: with the non-numeric raw value "abc" for `port`,
resolution does not fail — `parseInt` yields `NaN`, the range validator
passes `NaN`, and `getOption` returns `NaN` — contradicting the claim that a
parse failure propagates and aborts startup. -/
theorem nonNumericPortResolvesToNaN :
    getOption "port" (some (JSNum.num 3000)) portParser portValidators
      argsPortAbc (fun _ => none)
      = Except.ok JSNum.nan ∧
    parseIntJS "abc" = JSNum.nan := ⟨rfl, rfl⟩

/-- CLI snapshot of the C3 scenario: `knockout_api_key=abc123`,
`https_key_filepath=/tmp/key.pem`, `https_cert_filepath=/tmp/cert.pem`, and
nothing else (no `port`, no `base_url`). -/
def argsScenario : String → Option String := fun n =>
  if n = "knockout_api_key" then some "abc123"
  else if n = "https_key_filepath" then some "/tmp/key.pem"
  else if n = "https_cert_filepath" then some "/tmp/cert.pem"
  else none

/-- Environment snapshot supplying only `BASE_URL=https://example.com/`. -/
def envBaseUrl : String → Option String :=
  fun n => if n = "BASE_URL" then some "https://example.com/" else none

/-- File-system snapshot holding the two TLS files of the C3 scenario. -/
def fsScenario (keyData certData : String) : String → Option String := fun p =>
  if p = "/tmp/key.pem" then some keyData
  else if p = "/tmp/cert.pem" then some certData
  else none

/-- Claim C3 counterexample: with exactly the scenario's CLI entries, an
empty environment, and both files readable, resolution of the whole record
does not succeed — `base_url` is required, unsupplied, and aborts the
construction. -/
theorem scenarioWithoutBaseUrlFails :
    resolveConfig argsScenario (fun _ => none) (fsScenario "KEYDATA" "CERTDATA")
      = Except.error (Thrown.error "ReferenceError" "Required option base_url is unset") :=
  rfl

/-- Claim C3 amended: with the scenario's CLI entries, `base_url`
additionally supplied (here `BASE_URL=https://example.com/` in the
environment) and no `port` from either source, resolution succeeds and
yields apiKey "abc123", port 3000, and https key/cert equal to the files'
contents, whatever those contents are. -/
theorem scenarioWithBaseUrlSucceeds (keyData certData : String) :
    resolveConfig argsScenario envBaseUrl (fsScenario keyData certData)
      = Except.ok (Config.mk "abc123" (JSURL.mk "https://example.com/")
          (HttpsConfig.mk keyData certData) (JSNum.num 3000)) :=
  rfl

/-- Claim C4 evaluation: resolving `port` with raw value "70000" raises a
`RangeError` whose rewritten message contains the option name "port" and the
original out-of-range text, but — because the source misspells the marker as
"invaild" (config.ts:82) — does not contain the substring "invalid". -/
theorem portRangeErrorMessageMisspelled :
    getOption "port" (some (JSNum.num 3000)) portParser portValidators
      argsPort70000 envPort8080
      = Except.error (Thrown.error "RangeError"
          "Option port is invaild: Value 70000 is not in range [1, 65535]") ∧
    strContainsSub "Option port is invaild: Value 70000 is not in range [1, 65535]"
      "port" = true ∧
    strContainsSub "Option port is invaild: Value 70000 is not in range [1, 65535]"
      "Value 70000 is not in range [1, 65535]" = true ∧
    strContainsSub "Option port is invaild: Value 70000 is not in range [1, 65535]"
      "invalid" = false :=
  ⟨rfl, rfl, rfl, rfl⟩

end Knockout
